import Mathlib

/-!
Shallow embedding of the WealthProjector computation engine
(src/src/components/InvestmentCalculator.tsx): the historical series
generator (`calculations`), the periodic-contribution solver
(`calculatePerPeriodInvestment`) and the forward strategy projector
(`futureProjections`). JavaScript numbers are modelled as rationals and
`Math.round` as half-up rounding to an integer.
-/

namespace WealthProjector

/-- JavaScript `Math.round`: round half up, i.e. `⌊x + 1/2⌋`. -/
def jsRound (x : ℚ) : ℤ := ⌊x + 1/2⌋

/-- Contribution frequency of the historical series (`Frequency` in the source). -/
inductive Frequency
  | once
  | daily
  | weekly
  | monthly
deriving DecidableEq

/-- Frequency of the forward projector (`ProjectionFrequency` in the source). -/
inductive ProjectionFrequency
  | yearly
  | monthly
  | weekly
  | daily
deriving DecidableEq

/-- The ten reinvestment strategies (`ReinvestmentStrategy` in the source). -/
inductive ReinvestmentStrategy
  | twoX
  | repeatStrat
  | allIn
  | doubleDown
  | shieldValue
  | levelUp
  | payYourself
  | capitalProtect
  | takeSalary
  | custom
deriving DecidableEq

/-- One row of the historical series (`CalculationData` in the source);
the calendar-date field is omitted (no claim concerns it). All stored
fields are rounded. -/
structure CalculationData where
  period : ℕ
  totalInvested : ℤ
  currentValue : ℤ
  profit : ℤ
  displayValue : ℤ
deriving DecidableEq

/-- One row of the forward projection (`ProjectionData` in the source).
All stored fields are rounded. -/
structure ProjectionData where
  period : ℕ
  startValue : ℤ
  newCash : ℤ
  totalInvested : ℤ
  profit : ℤ
  afterGrowth : ℤ
  cashOut : ℤ
  endValue : ℤ
deriving DecidableEq

/-- Configuration of the historical series generator (the component state
fields consumed by `calculations`). -/
structure GrowthConfig where
  investmentAmount : ℚ
  roiPercentage : ℚ
  duration : ℕ
  frequency : Frequency
  enableInflation : Bool
  inflationRate : ℚ
  showTotal : Bool

/-- Source: `frequency === 'daily' ? 365 : frequency === 'weekly' ? 52 : 12`
(evaluated only on the recurring branch, where frequency is never `once`). -/
def periodsPerYear : Frequency → ℕ
  | .daily => 365
  | .weekly => 52
  | _ => 12

/-- Number of emitted periods: `duration` months for lump-sum mode,
`Math.floor((duration/12) * periodsPerYear)` for recurring mode. -/
def totalPeriods (cfg : GrowthConfig) : ℕ :=
  match cfg.frequency with
  | .once => cfg.duration
  | f => cfg.duration * periodsPerYear f / 12

/-- Per-period growth rate of the recurring branch:
`roiPercentage / 100 / periodsPerYear`. -/
def ratePerPeriod (cfg : GrowthConfig) : ℚ :=
  cfg.roiPercentage / 100 / (periodsPerYear cfg.frequency : ℚ)

/-- Per-period inflation of the recurring branch:
`enableInflation ? inflationRate / 100 / periodsPerYear : 0`. -/
def inflationPerPeriod (cfg : GrowthConfig) : ℚ :=
  if cfg.enableInflation then cfg.inflationRate / 100 / (periodsPerYear cfg.frequency : ℚ) else 0

/-- Unrounded `(totalInvested, currentValue)` accumulator of the recurring
branch after `i` iterations: each period adds the contribution, grows by
`(1 + ratePerPeriod)`, then deflates by `(1 + inflationPerPeriod)` when
inflation is enabled. -/
def recurringState (cfg : GrowthConfig) : ℕ → ℚ × ℚ
  | 0 => (0, 0)
  | i + 1 =>
    let st := recurringState cfg i
    let totalInvested := st.1 + cfg.investmentAmount
    let grown := (st.2 + cfg.investmentAmount) * (1 + ratePerPeriod cfg)
    let currentValue := if cfg.enableInflation then grown / (1 + inflationPerPeriod cfg) else grown
    (totalInvested, currentValue)

/-- Unrounded `(totalInvested, currentValue)` at period `i`. Lump-sum mode is
linear in elapsed months: `investmentAmount * (1 + annualRate * (i/12))`
times the linear inflation adjustment; period 0 is the plain principal.
Recurring mode is the compounding accumulator. -/
def calcUnrounded (cfg : GrowthConfig) (i : ℕ) : ℚ × ℚ :=
  match cfg.frequency with
  | .once =>
    let annualRate := cfg.roiPercentage / 100
    let periodRate := annualRate * ((i : ℚ) / 12)
    let periodInflation :=
      if cfg.enableInflation then 1 - (cfg.inflationRate / 100) * ((i : ℚ) / 12) else 1
    let periodValue :=
      if i = 0 then cfg.investmentAmount
      else cfg.investmentAmount * (1 + periodRate) * periodInflation
    (cfg.investmentAmount, periodValue)
  | _ => recurringState cfg i

/-- The emitted (rounded) historical-series row at period `i`. -/
def calcPoint (cfg : GrowthConfig) (i : ℕ) : CalculationData :=
  let st := calcUnrounded cfg i
  { period := i
    totalInvested := jsRound st.1
    currentValue := jsRound st.2
    profit := jsRound (st.2 - st.1)
    displayValue := if cfg.showTotal then jsRound st.2 else jsRound (st.2 - st.1) }

/-- The full historical series (`calculations` in the source): periods
`0 .. totalPeriods` inclusive. -/
def calculations (cfg : GrowthConfig) : List CalculationData :=
  (List.range (totalPeriods cfg + 1)).map (calcPoint cfg)

/-- The rounded `currentValue` of the last emitted historical row
(`finalData.currentValue` in the source). -/
def finalCurrentValue (cfg : GrowthConfig) : ℤ :=
  (calcPoint cfg (totalPeriods cfg)).currentValue

/-- Per-period rate used by the solver: `annualRate` divided per the
frequency mapping `{monthly: 12, weekly: 52, daily: 365, yearly: 1}`. -/
def perPeriodRate (annualRate : ℚ) : ProjectionFrequency → ℚ
  | .monthly => annualRate / 12
  | .weekly => annualRate / 52
  | .daily => annualRate / 365
  | .yearly => annualRate

/-- The periodic-contribution solver (`calculatePerPeriodInvestment` in the
source): returns 0 when `periods ≤ 0` or `startBalance ≤ 0`; the linear
solution when the per-period rate is 0; otherwise solves the
future-value-of-annuity identity
`C = (target − start·(1+r)^n) · r / ((1+r)^n − 1)`. -/
def calculatePerPeriodInvestment (startBalance targetAmount : ℚ) (periods : ℕ)
    (annualRate : ℚ) (freq : ProjectionFrequency) : ℚ :=
  if periods = 0 ∨ startBalance ≤ 0 then 0
  else
    let rate := perPeriodRate annualRate freq
    if rate = 0 then (targetAmount - startBalance) / (periods : ℚ)
    else
      let growthFactor := (1 + rate) ^ periods
      let futureValueOfStart := startBalance * growthFactor
      let amountNeeded := targetAmount - futureValueOfStart
      let annuityFactor := (growthFactor - 1) / rate
      amountNeeded / annuityFactor

/-- Inputs of the forward projector (`futureProjections` in the source):
the component state it closes over, plus the final historical value it
reads from `finalData.currentValue`. -/
structure ProjParams where
  investmentAmount : ℚ
  roiPercentage : ℚ
  inflationRate : ℚ
  enableInflation : Bool
  projectionFrequency : ProjectionFrequency
  projectionDuration : ℕ
  reinvestmentStrategy : ReinvestmentStrategy
  levelUpAmount : ℚ
  salaryAmount : ℚ
  customTargetAmount : ℚ
  finalCurrentValue : ℚ

/-- Per-period growth rate of the projector (the `rate` field of
`getConfig()` in the source). -/
def ProjParams.rate (p : ProjParams) : ℚ :=
  perPeriodRate (p.roiPercentage / 100) p.projectionFrequency

/-- Shield-value inflation rate: always derived from the configured
inflation rate, regardless of the inflation toggle. -/
def ProjParams.shieldInflation (p : ProjParams) : ℚ :=
  perPeriodRate (p.inflationRate / 100) p.projectionFrequency

/-- The custom strategy's solver call: starts from `finalData.currentValue`,
targets `customTargetAmount`, over `projectionDuration` periods. -/
def ProjParams.customPerPeriodAmount (p : ProjParams) : ℚ :=
  calculatePerPeriodInvestment p.finalCurrentValue p.customTargetAmount
    p.projectionDuration (p.roiPercentage / 100) p.projectionFrequency

/-- The `{newCash, cashOut, endValue}` triple one strategy rule produces. -/
structure StepResult where
  newCash : ℚ
  cashOut : ℚ
  endValue : ℚ
deriving DecidableEq

/-- The strategy `switch` of the projector loop (periods ≥ 2), operating on
the unrounded carried balance `startValue` and the previous period's
unrounded profit. Translated case by case from the source. -/
def strategyStep (p : ProjParams) (startValue previousProfit : ℚ) : StepResult :=
  match p.reinvestmentStrategy with
  | .twoX =>
    let newCash := startValue
    { newCash := newCash, cashOut := 0, endValue := (startValue + newCash) * (1 + p.rate) }
  | .repeatStrat =>
    let newCash := p.investmentAmount
    { newCash := newCash, cashOut := 0, endValue := (startValue + newCash) * (1 + p.rate) }
  | .allIn =>
    { newCash := 0, cashOut := 0, endValue := startValue * (1 + p.rate) }
  | .doubleDown =>
    let newCash := previousProfit
    { newCash := newCash, cashOut := 0, endValue := (startValue + newCash) * (1 + p.rate) }
  | .shieldValue =>
    let newCash := startValue * p.shieldInflation
    { newCash := newCash, cashOut := 0, endValue := (startValue + newCash) * (1 + p.rate) }
  | .levelUp =>
    let newCash := p.levelUpAmount
    { newCash := newCash, cashOut := 0, endValue := (startValue + newCash) * (1 + p.rate) }
  | .payYourself =>
    let payYourselfGrowth := startValue * p.rate
    let cashOut := payYourselfGrowth / 2
    { newCash := 0, cashOut := cashOut, endValue := startValue + payYourselfGrowth / 2 }
  | .capitalProtect =>
    let excessOverPrincipal := max 0 (startValue - p.investmentAmount)
    let principalProfit := p.investmentAmount * p.rate
    { newCash := 0, cashOut := excessOverPrincipal + principalProfit,
      endValue := p.investmentAmount }
  | .takeSalary =>
    let afterGrowth := startValue * (1 + p.rate)
    let cashOut := min p.salaryAmount afterGrowth
    { newCash := 0, cashOut := cashOut, endValue := max 0 (afterGrowth - cashOut) }
  | .custom =>
    let customPerPeriodAmount := p.customPerPeriodAmount
    if 0 ≤ customPerPeriodAmount then
      let newCash := customPerPeriodAmount
      { newCash := newCash, cashOut := 0, endValue := (startValue + newCash) * (1 + p.rate) }
    else
      let grownValue := startValue * (1 + p.rate)
      let cashOut := min |customPerPeriodAmount| grownValue
      { newCash := 0, cashOut := cashOut, endValue := max 0 (grownValue - cashOut) }

/-- The unrounded `(balance, previousProfit)` accumulator after processing
period `i` of the projector loop. `balance` starts at the original
principal; period 1 is the bootstrap (`year1EndValue = invested + profit`);
later periods apply the strategy rule and the profit formula
`newCash > 0 ? totalInvested * rate : startValue * rate`. -/
def projState (p : ProjParams) : ℕ → ℚ × ℚ
  | 0 => (p.investmentAmount, 0)
  | 1 => (p.investmentAmount + p.investmentAmount * p.rate, p.investmentAmount * p.rate)
  | n + 2 =>
    let st := projState p (n + 1)
    let s := strategyStep p st.1 st.2
    (s.endValue, if 0 < s.newCash then (st.1 + s.newCash) * p.rate else st.1 * p.rate)

/-- The emitted (rounded) projection row for period `i ≥ 1`; period 0 is a
dummy (the loop starts at 1). -/
def projPoint (p : ProjParams) : ℕ → ProjectionData
  | 0 =>
    { period := 0, startValue := 0, newCash := 0, totalInvested := 0, profit := 0,
      afterGrowth := 0, cashOut := 0, endValue := 0 }
  | 1 =>
    let year1Invested := p.investmentAmount
    let year1Profit := year1Invested * p.rate
    let year1EndValue := year1Invested + year1Profit
    { period := 1, startValue := 0, newCash := jsRound p.investmentAmount,
      totalInvested := jsRound year1Invested, profit := jsRound year1Profit,
      afterGrowth := jsRound year1EndValue, cashOut := 0, endValue := jsRound year1EndValue }
  | n + 2 =>
    let st := projState p (n + 1)
    let startValue := st.1
    let s := strategyStep p startValue st.2
    let totalInvested := startValue + s.newCash
    let actualProfit := if 0 < s.newCash then totalInvested * p.rate else startValue * p.rate
    let afterGrowthValue :=
      if 0 < s.newCash then totalInvested * (1 + p.rate) else startValue * (1 + p.rate)
    { period := n + 2, startValue := jsRound startValue, newCash := jsRound s.newCash,
      totalInvested := jsRound totalInvested, profit := jsRound actualProfit,
      afterGrowth := jsRound afterGrowthValue, cashOut := jsRound s.cashOut,
      endValue := jsRound s.endValue }

/-- The full forward projection (`futureProjections` in the source):
periods `1 .. projectionDuration`. -/
def futureProjections (p : ProjParams) : List ProjectionData :=
  (List.range p.projectionDuration).map (fun k => projPoint p (k + 1))

/-- Assembles the projector inputs the way the component does: the custom
strategy's solver reference balance is the historical series' final rounded
`currentValue`. -/
def projParamsOf (cfg : GrowthConfig) (pf : ProjectionFrequency) (pd : ℕ)
    (strat : ReinvestmentStrategy) (lvl sal tgt : ℚ) : ProjParams :=
  { investmentAmount := cfg.investmentAmount
    roiPercentage := cfg.roiPercentage
    inflationRate := cfg.inflationRate
    enableInflation := cfg.enableInflation
    projectionFrequency := pf
    projectionDuration := pd
    reinvestmentStrategy := strat
    levelUpAmount := lvl
    salaryAmount := sal
    customTargetAmount := tgt
    finalCurrentValue := (finalCurrentValue cfg : ℚ) }

/-- Modelled from the spec: the §4.3 strategy table, written directly from
the spec's rows (`newCash`/`cashOut`/`endValue` per strategy), to be
compared with the code's `strategyStep`. -/
def specTableRule (p : ProjParams) (startValue previousProfit : ℚ) : StepResult :=
  match p.reinvestmentStrategy with
  | .twoX =>
    { newCash := startValue, cashOut := 0,
      endValue := (startValue + startValue) * (1 + p.rate) }
  | .repeatStrat =>
    { newCash := p.investmentAmount, cashOut := 0,
      endValue := (startValue + p.investmentAmount) * (1 + p.rate) }
  | .allIn =>
    { newCash := 0, cashOut := 0, endValue := startValue * (1 + p.rate) }
  | .doubleDown =>
    { newCash := previousProfit, cashOut := 0,
      endValue := (startValue + previousProfit) * (1 + p.rate) }
  | .shieldValue =>
    { newCash := startValue * p.shieldInflation, cashOut := 0,
      endValue := (startValue + startValue * p.shieldInflation) * (1 + p.rate) }
  | .levelUp =>
    { newCash := p.levelUpAmount, cashOut := 0,
      endValue := (startValue + p.levelUpAmount) * (1 + p.rate) }
  | .payYourself =>
    { newCash := 0, cashOut := startValue * p.rate / 2,
      endValue := startValue + startValue * p.rate / 2 }
  | .capitalProtect =>
    { newCash := 0,
      cashOut := max 0 (startValue - p.investmentAmount) + p.investmentAmount * p.rate,
      endValue := p.investmentAmount }
  | .takeSalary =>
    { newCash := 0, cashOut := min p.salaryAmount (startValue * (1 + p.rate)),
      endValue := max 0 (startValue * (1 + p.rate)
        - min p.salaryAmount (startValue * (1 + p.rate))) }
  | .custom =>
    if 0 ≤ p.customPerPeriodAmount then
      { newCash := p.customPerPeriodAmount, cashOut := 0,
        endValue := (startValue + p.customPerPeriodAmount) * (1 + p.rate) }
    else
      { newCash := 0,
        cashOut := min |p.customPerPeriodAmount| (startValue * (1 + p.rate)),
        endValue := max 0 (startValue * (1 + p.rate)
          - min |p.customPerPeriodAmount| (startValue * (1 + p.rate))) }

/-- Modelled from the spec: the projection row the §4.3 table prescribes for
a period `i ≥ 2` — the rule operates on `startValue` = the previous
period's unrounded end value, with the derived fields
`totalInvested = startValue + newCash`, `profit = totalInvested×r` when
`newCash > 0` else `startValue×r`, and `afterGrowth = totalInvested×(1+r)`
when `newCash > 0` else `startValue×(1+r)`. -/
def specPoint (p : ProjParams) (i : ℕ) : ProjectionData :=
  let st := projState p (i - 1)
  let startValue := st.1
  let s := specTableRule p startValue st.2
  let totalInvested := startValue + s.newCash
  let profit := if 0 < s.newCash then totalInvested * p.rate else startValue * p.rate
  let afterGrowth :=
    if 0 < s.newCash then totalInvested * (1 + p.rate) else startValue * (1 + p.rate)
  { period := i, startValue := jsRound startValue, newCash := jsRound s.newCash,
    totalInvested := jsRound totalInvested, profit := jsRound profit,
    afterGrowth := jsRound afterGrowth, cashOut := jsRound s.cashOut,
    endValue := jsRound s.endValue }

theorem strategyStep_eq_specTableRule (p : ProjParams) (b pp : ℚ) :
    strategyStep p b pp = specTableRule p b pp := by
  cases h : p.reinvestmentStrategy <;>
    simp only [strategyStep, specTableRule, h]

/-- C1: from period 2 onward, exactly one strategy rule fires on
`startValue` = the previous period's unrounded end value, producing
`{newCash, cashOut, endValue}` per the §4.3 table, together with the derived
fields `totalInvested = startValue + newCash`, `profit = totalInvested×r`
when `newCash > 0` else `startValue×r`, and `afterGrowth` analogously: the
emitted row equals the spec-table row. -/
theorem projPoint_eq_specPoint (p : ProjParams) (i : ℕ) (hi : 2 ≤ i) :
    projPoint p i = specPoint p i := by
  obtain ⟨n, rfl⟩ : ∃ n, i = n + 2 := ⟨i - 2, by omega⟩
  simp only [projPoint, specPoint, strategyStep_eq_specTableRule]
  rfl

def exP1 : ProjParams :=
  { investmentAmount := 1000, roiPercentage := 10, inflationRate := 3,
    enableInflation := false, projectionFrequency := .yearly, projectionDuration := 3,
    reinvestmentStrategy := .payYourself, levelUpAmount := 50, salaryAmount := 100,
    customTargetAmount := 50000, finalCurrentValue := 1100 }

/-- Witness for C1 at a concrete configuration and period 2. -/
theorem projPoint_eq_specPoint_witness :
    2 ≤ 2 ∧ projPoint exP1 2 = specPoint exP1 2 :=
  ⟨by decide, projPoint_eq_specPoint exP1 2 (by decide)⟩

theorem jsRound_intCast (n : ℤ) : jsRound (n : ℚ) = n := by
  simp [jsRound]
  norm_num

theorem jsRound_sub_intCast (x : ℚ) (n : ℤ) : jsRound (x - n) = jsRound x - n := by
  simp only [jsRound, sub_add_eq_add_sub, Int.floor_sub_int]

def c2cfg : GrowthConfig :=
  { investmentAmount := 9/10, roiPercentage := 100, duration := 20, frequency := .once,
    enableInflation := false, inflationRate := 3, showTotal := true }

/-- Counterexample to C2: with a fractional lump-sum principal of `$0.90` at
`100%` annual rate over 20 months, the period-20 row stores
`currentValue = 2`, `totalInvested = 1`, `profit = 2`, and
`2 ≠ 2 − 1`: the identity fails on the rounded stored fields. -/
theorem calcPoint_identity_counterexample :
    calcPoint c2cfg 20 ∈ calculations c2cfg ∧
    (calcPoint c2cfg 20).profit ≠
      (calcPoint c2cfg 20).currentValue - (calcPoint c2cfg 20).totalInvested := by
  constructor
  · exact List.mem_map_of_mem _ (by simp [totalPeriods, c2cfg])
  · norm_num [calcPoint, calcUnrounded, c2cfg, jsRound]

/-- C2 amended: the identity `profit = currentValue − totalInvested` holds
on the unrounded values of every point (the stored `profit` is the rounding
of the exact difference), and it holds on the stored rounded fields whenever
the unrounded `totalInvested` is an integer (e.g. whole-currency
contribution amounts). -/
theorem calcPoint_profit_identity (cfg : GrowthConfig) (i : ℕ) :
    (calcPoint cfg i).profit =
      jsRound ((calcUnrounded cfg i).2 - (calcUnrounded cfg i).1) ∧
    (∀ n : ℤ, (calcUnrounded cfg i).1 = (n : ℚ) →
      (calcPoint cfg i).profit =
        (calcPoint cfg i).currentValue - (calcPoint cfg i).totalInvested) := by
  refine ⟨rfl, fun n hn => ?_⟩
  simp only [calcPoint, hn, jsRound_sub_intCast, jsRound_intCast]

def wcfg : GrowthConfig :=
  { investmentAmount := 1000, roiPercentage := 10, duration := 12, frequency := .monthly,
    enableInflation := false, inflationRate := 3, showTotal := true }

/-- Witness for the amended C2 at a whole-currency recurring configuration. -/
theorem calcPoint_profit_identity_witness :
    (calcPoint wcfg 1).profit =
      (calcPoint wcfg 1).currentValue - (calcPoint wcfg 1).totalInvested :=
  (calcPoint_profit_identity wcfg 1).2 1000
    (by norm_num [calcUnrounded, recurringState, wcfg])

/-- The level-up-style forward loop of the claim's round trip: each period
adds the fixed contribution at the start, then grows,
`balance ← (balance + C) × (1 + r)` (the projector's reinvest update). -/
def levelUpIterate (contribution rate balance : ℚ) : ℕ → ℚ
  | 0 => balance
  | n + 1 => (levelUpIterate contribution rate balance n + contribution) * (1 + rate)

/-- The ordinary-annuity forward loop: the contribution lands at the end of
the period, `balance ← balance × (1 + r) + C` — the cash-flow timing the
solver's annuity factor actually encodes. -/
def ordinaryIterate (contribution rate balance : ℚ) : ℕ → ℚ
  | 0 => balance
  | n + 1 => ordinaryIterate contribution rate balance n * (1 + rate) + contribution

/-- Counterexample to C3: `solve(100, 200, 1, 10%, yearly) = 90`, but one
step of the level-up-style update gives `(100 + 90) × 1.1 = 209`, which
misses the target 200 by 9 — far beyond rounding tolerance. -/
theorem solver_roundtrip_counterexample :
    calculatePerPeriodInvestment 100 200 1 (1/10) .yearly = 90 ∧
    levelUpIterate (calculatePerPeriodInvestment 100 200 1 (1/10) .yearly)
      (perPeriodRate (1/10) .yearly) 100 1 = 209 ∧
    (209 : ℚ) ≠ 200 ∧ |(209 : ℚ) - 200| = 9 := by
  refine ⟨?_, ?_, by norm_num, by norm_num⟩
  · norm_num [calculatePerPeriodInvestment, perPeriodRate]
  · norm_num [levelUpIterate, calculatePerPeriodInvestment, perPeriodRate]

theorem ordinaryIterate_closed_form (C r b : ℚ) (n : ℕ) :
    ordinaryIterate C r b n =
      b * (1 + r) ^ n + C * ∑ k ∈ Finset.range n, (1 + r) ^ k := by
  induction n with
  | zero => simp [ordinaryIterate]
  | succ n ih =>
    rw [ordinaryIterate, ih, geom_sum_succ]
    ring

/-- C3 amended: the solver's output round-trips to the target through the
*ordinary-annuity* update `balance ← balance × (1 + r) + C` (contribution
credited at the end of each period), landing on the target exactly, for
every `startBalance > 0`, `periods > 0` and per-period rate above −200%.
The level-up-style start-of-period update of the original claim overshoots
whenever the rate and contribution are non-zero. -/
theorem solver_ordinary_roundtrip (startBalance targetAmount annualRate : ℚ) (periods : ℕ)
    (freq : ProjectionFrequency) (hs : 0 < startBalance) (hn : 0 < periods)
    (hr : -2 < perPeriodRate annualRate freq) :
    ordinaryIterate
      (calculatePerPeriodInvestment startBalance targetAmount periods annualRate freq)
      (perPeriodRate annualRate freq) startBalance periods = targetAmount := by
  set r := perPeriodRate annualRate freq with hrdef
  rw [calculatePerPeriodInvestment]
  rw [if_neg (by push_neg; exact ⟨hn.ne', hs⟩)]
  rw [ordinaryIterate_closed_form]
  by_cases hr0 : r = 0
  · rw [if_pos hr0, hr0]
    simp only [add_zero, one_pow, one_mul, Finset.sum_const, Finset.card_range,
      nsmul_eq_mul, mul_one]
    field_simp
  · rw [if_neg hr0]
    have hx1 : (1 + r) ≠ 1 := by
      intro h
      exact hr0 (by linarith [add_left_cancel (a := (1:ℚ)) (by linarith : 1 + r = 1 + 0)])
    have hgf : (1 + r) ^ periods ≠ 1 := by
      rcases lt_or_gt_of_ne hr0 with hneg | hpos
      · have habs : |1 + r| < 1 := by
          rw [abs_lt]; constructor <;> linarith
        have : |(1 + r) ^ periods| < 1 := by
          rw [abs_pow]
          calc |1 + r| ^ periods ≤ |1 + r| ^ 1 :=
                pow_le_pow_of_le_one (abs_nonneg _) habs.le hn
            _ < 1 := by simpa using habs
        intro h
        rw [h] at this
        simp at this
      · have : 1 < (1 + r) ^ periods := one_lt_pow₀ (by linarith) hn.ne'
        exact this.ne'
    rw [geom_sum_eq hx1]
    have h1 : (1 + r) ^ periods - 1 ≠ 0 := sub_ne_zero.mpr hgf
    have h2 : (1 + r) - 1 = r := by ring
    rw [h2]
    field_simp

/-- Witness for the amended C3: `solve(100, 200, 1, 10%, yearly) = 90` and
the end-of-period update gives `100 × 1.1 + 90 = 200`, exactly the target. -/
theorem solver_ordinary_roundtrip_witness :
    ordinaryIterate
      (calculatePerPeriodInvestment 100 200 1 (1/10) .yearly)
      (perPeriodRate (1/10) .yearly) 100 1 = 200 :=
  solver_ordinary_roundtrip 100 200 (1/10) 1 .yearly (by norm_num) (by norm_num)
    (by norm_num [perPeriodRate])

theorem jsRound_nonneg {x : ℚ} (hx : 0 ≤ x) : 0 ≤ jsRound x := by
  rw [jsRound]
  exact Int.le_floor.mpr (by push_cast; linarith)

theorem perPeriodRate_nonneg {a : ℚ} (ha : 0 ≤ a) (f : ProjectionFrequency) :
    0 ≤ perPeriodRate a f := by
  cases f <;> simp only [perPeriodRate] <;> positivity

theorem strategyStep_nonneg (p : ProjParams) (b pp : ℚ)
    (hA : 0 ≤ p.investmentAmount) (hr : 0 ≤ p.rate) (hsh : 0 ≤ p.shieldInflation)
    (hlvl : 0 ≤ p.levelUpAmount) (hb : 0 ≤ b) (hpp : 0 ≤ pp) :
    0 ≤ (strategyStep p b pp).newCash ∧ 0 ≤ (strategyStep p b pp).endValue := by
  have h1r : (0:ℚ) ≤ 1 + p.rate := by linarith
  cases h : p.reinvestmentStrategy <;> simp only [strategyStep, h]
  case twoX => exact ⟨hb, mul_nonneg (by linarith) h1r⟩
  case repeatStrat => exact ⟨hA, mul_nonneg (by linarith) h1r⟩
  case allIn => exact ⟨le_refl 0, mul_nonneg hb h1r⟩
  case doubleDown => exact ⟨hpp, mul_nonneg (by linarith) h1r⟩
  case shieldValue =>
    have hbs : 0 ≤ b * p.shieldInflation := mul_nonneg hb hsh
    exact ⟨hbs, mul_nonneg (by linarith) h1r⟩
  case levelUp => exact ⟨hlvl, mul_nonneg (by linarith) h1r⟩
  case payYourself =>
    have hbr : 0 ≤ b * p.rate := mul_nonneg hb hr
    exact ⟨le_refl 0, by linarith⟩
  case capitalProtect => exact ⟨le_refl 0, hA⟩
  case takeSalary => exact ⟨le_refl 0, le_max_left 0 _⟩
  case custom =>
    split
    · next hc => exact ⟨hc, mul_nonneg (add_nonneg hb hc) h1r⟩
    · next hc => exact ⟨le_refl 0, le_max_left 0 _⟩

theorem projState_nonneg (p : ProjParams)
    (hA : 0 ≤ p.investmentAmount) (hr : 0 ≤ p.rate) (hsh : 0 ≤ p.shieldInflation)
    (hlvl : 0 ≤ p.levelUpAmount) :
    ∀ i, 0 ≤ (projState p i).1 ∧ 0 ≤ (projState p i).2 := by
  intro i
  induction i using Nat.strong_induction_on with
  | _ i ih =>
    match i with
    | 0 => exact ⟨hA, le_refl 0⟩
    | 1 =>
      have hAr : 0 ≤ p.investmentAmount * p.rate := mul_nonneg hA hr
      exact ⟨by simp only [projState]; linarith, by simp only [projState]; linarith⟩
    | n + 2 =>
      obtain ⟨hb, hpp⟩ := ih (n + 1) (by omega)
      obtain ⟨hnc, hev⟩ :=
        strategyStep_nonneg p (projState p (n + 1)).1 (projState p (n + 1)).2
          hA hr hsh hlvl hb hpp
      refine ⟨by simp only [projState]; exact hev, ?_⟩
      simp only [projState]
      split
      · exact mul_nonneg (add_nonneg hb hnc) hr
      · exact mul_nonneg hb hr

def exP4 : ProjParams :=
  { investmentAmount := 1000, roiPercentage := 10, inflationRate := 3,
    enableInflation := false, projectionFrequency := .yearly, projectionDuration := 2,
    reinvestmentStrategy := .levelUp, levelUpAmount := -10000, salaryAmount := 100,
    customTargetAmount := 50000, finalCurrentValue := 1100 }

/-- Counterexample to C4: level-up with parameter `−10000`, principal 1000
and 10% yearly rate ends period 2 at `(1100 − 10000) × 1.1 = −9790`: a
strategy-parameter value under which a period ends with a negative balance. -/
theorem endValue_nonneg_counterexample :
    projPoint exP4 2 ∈ futureProjections exP4 ∧
    (projPoint exP4 2).endValue = -9790 ∧ (-9790 : ℤ) < 0 := by
  refine ⟨List.mem_map_of_mem _ (by simp [exP4]), ?_, by norm_num⟩
  norm_num [projPoint, projState, strategyStep, exP4, jsRound,
    ProjParams.rate, perPeriodRate]

/-- C4 amended: with non-negative rate, principal, inflation rate and
strategy parameters, every projection period ends with `endValue ≥ 0` under
every strategy (the withdrawal strategies clamp `cashOut` to the available
funds); a negative reinvest parameter such as level-up's can drive the
balance negative, so the non-negativity is conditional on the inputs. -/
theorem projection_endValue_nonneg (p : ProjParams)
    (hA : 0 ≤ p.investmentAmount) (hroi : 0 ≤ p.roiPercentage)
    (hinfl : 0 ≤ p.inflationRate) (hlvl : 0 ≤ p.levelUpAmount)
    (i : ℕ) (hi : 1 ≤ i) :
    0 ≤ (projPoint p i).endValue := by
  have hr : 0 ≤ p.rate := perPeriodRate_nonneg (by positivity) p.projectionFrequency
  have hsh : 0 ≤ p.shieldInflation := perPeriodRate_nonneg (by positivity) p.projectionFrequency
  match i with
  | 1 =>
    have hAr : 0 ≤ p.investmentAmount * p.rate := mul_nonneg hA hr
    exact jsRound_nonneg (by linarith)
  | n + 2 =>
    obtain ⟨hb, hpp⟩ := projState_nonneg p hA hr hsh hlvl (n + 1)
    obtain ⟨hnc, hev⟩ :=
      strategyStep_nonneg p (projState p (n + 1)).1 (projState p (n + 1)).2
        hA hr hsh hlvl hb hpp
    exact jsRound_nonneg hev

/-- Witness for the amended C4 at a concrete pay-yourself configuration. -/
theorem projection_endValue_nonneg_witness : 0 ≤ (projPoint exP1 2).endValue :=
  projection_endValue_nonneg exP1 (by norm_num [exP1]) (by norm_num [exP1])
    (by norm_num [exP1]) (by norm_num [exP1]) 2 (by norm_num)

/-- The exact (unrounded) end value computed for period `i` of the
projector: the bootstrap total for period 1, the strategy rule's `endValue`
for later periods. -/
def unroundedEnd (p : ProjParams) : ℕ → ℚ
  | 0 => p.investmentAmount
  | 1 => p.investmentAmount + p.investmentAmount * p.rate
  | n + 2 => (strategyStep p (projState p (n + 1)).1 (projState p (n + 1)).2).endValue

/-- C5: the running balance is carried unrounded — the carried state after
period `i` is exactly the unrounded end value of period `i`, the next
period's row reads its `startValue` as the rounding of that exact value,
and the emitted `endValue` of period `i` is likewise only a rounded copy:
display rounding never enters the carried state. -/
theorem projection_carries_unrounded (p : ProjParams) (i : ℕ) (hi : 1 ≤ i) :
    (projState p i).1 = unroundedEnd p i ∧
    (projPoint p (i + 1)).startValue = jsRound (unroundedEnd p i) ∧
    (projPoint p i).endValue = jsRound (unroundedEnd p i) := by
  match i with
  | 1 => exact ⟨rfl, rfl, rfl⟩
  | n + 2 => exact ⟨rfl, rfl, rfl⟩

/-- Witness for C5 at a concrete configuration and period 1. -/
theorem projection_carries_unrounded_witness :
    (projState exP1 1).1 = unroundedEnd exP1 1 ∧
    (projPoint exP1 2).startValue = jsRound (unroundedEnd exP1 1) ∧
    (projPoint exP1 1).endValue = jsRound (unroundedEnd exP1 1) :=
  projection_carries_unrounded exP1 1 (by norm_num)

def c6cfg : GrowthConfig :=
  { investmentAmount := 1000, roiPercentage := 10, duration := 12, frequency := .once,
    enableInflation := false, inflationRate := 3, showTotal := true }

/-- C6: in lump-sum mode growth is linear in elapsed months — the unrounded
value at month `i` is
`principal × (1 + annualRate × (i/12)) × inflationAdjustment(i)` — and for
principal 1000 at 10% over 12 months without inflation the period-12
`currentValue` is exactly 1100. -/
theorem lumpSum_linear_growth (cfg : GrowthConfig) (hf : cfg.frequency = .once)
    (i : ℕ) (hi : i ≤ cfg.duration) :
    (calcUnrounded cfg i).2 =
      cfg.investmentAmount * (1 + cfg.roiPercentage / 100 * ((i : ℚ) / 12)) *
        (if cfg.enableInflation then 1 - cfg.inflationRate / 100 * ((i : ℚ) / 12) else 1) ∧
    (calcPoint c6cfg 12).currentValue = 1100 := by
  constructor
  · simp only [calcUnrounded, hf]
    by_cases h0 : i = 0
    · subst h0
      cases cfg.enableInflation <;> simp
    · rw [if_neg h0]
  · norm_num [calcPoint, calcUnrounded, c6cfg, jsRound]

/-- Witness for C6 at the concrete 1000/10%/12-month configuration. -/
theorem lumpSum_linear_growth_witness :
    (calcUnrounded c6cfg 12).2 =
      c6cfg.investmentAmount * (1 + c6cfg.roiPercentage / 100 * ((12 : ℚ) / 12)) *
        (if c6cfg.enableInflation then 1 - c6cfg.inflationRate / 100 * ((12 : ℚ) / 12) else 1) ∧
    (calcPoint c6cfg 12).currentValue = 1100 :=
  lumpSum_linear_growth c6cfg rfl 12 (by norm_num [c6cfg])

/-- C7: the period-1 bootstrap row is identical for any two projector
configurations sharing the starting balance and per-period rate — the
strategy selection only affects periods ≥ 2 — and its fields are
`startValue = 0`, `newCash = totalInvested = round(balance)`,
`profit = round(balance × rate)`,
`endValue = round(totalInvested + profit)` and `cashOut = 0`. -/
theorem bootstrap_identical (p1 p2 : ProjParams)
    (hA : p1.investmentAmount = p2.investmentAmount) (hr : p1.rate = p2.rate) :
    projPoint p1 1 = projPoint p2 1 ∧
    (projPoint p1 1).startValue = 0 ∧
    (projPoint p1 1).newCash = jsRound p1.investmentAmount ∧
    (projPoint p1 1).totalInvested = jsRound p1.investmentAmount ∧
    (projPoint p1 1).profit = jsRound (p1.investmentAmount * p1.rate) ∧
    (projPoint p1 1).endValue =
      jsRound (p1.investmentAmount + p1.investmentAmount * p1.rate) ∧
    (projPoint p1 1).cashOut = 0 := by
  refine ⟨?_, rfl, rfl, rfl, rfl, rfl, rfl⟩
  simp only [projPoint, hA, hr]

/-- Witness for C7: a pay-yourself and a level-up configuration with the
same balance and rate share the period-1 row. -/
theorem bootstrap_identical_witness :
    projPoint exP1 1 = projPoint exP4 1 ∧
    (projPoint exP1 1).startValue = 0 ∧
    (projPoint exP1 1).newCash = jsRound exP1.investmentAmount ∧
    (projPoint exP1 1).totalInvested = jsRound exP1.investmentAmount ∧
    (projPoint exP1 1).profit = jsRound (exP1.investmentAmount * exP1.rate) ∧
    (projPoint exP1 1).endValue =
      jsRound (exP1.investmentAmount + exP1.investmentAmount * exP1.rate) ∧
    (projPoint exP1 1).cashOut = 0 :=
  bootstrap_identical exP1 exP4 rfl rfl

theorem jsRound_zero : jsRound 0 = 0 := by
  norm_num [jsRound]

theorem strategyStep_exclusive (p : ProjParams) (b pp : ℚ) :
    (strategyStep p b pp).newCash = 0 ∨ (strategyStep p b pp).cashOut = 0 := by
  cases h : p.reinvestmentStrategy <;> simp only [strategyStep, h]
  case custom =>
    split
    · exact Or.inr rfl
    · exact Or.inl rfl
  all_goals
    first
      | exact Or.inl trivial
      | exact Or.inr trivial

def exP8 : ProjParams :=
  { exP4 with levelUpAmount := 0 }

/-- Counterexample to C8: level-up with parameter 0 produces a period-2 row
with `newCash = 0` and `cashOut = 0` although the strategy is not all-in, so
"exactly one of `newCash`/`cashOut` is non-zero except under all-in" fails. -/
theorem exactly_one_cashflow_counterexample :
    exP8.reinvestmentStrategy ≠ .allIn ∧
    projPoint exP8 2 ∈ futureProjections exP8 ∧
    (projPoint exP8 2).newCash = 0 ∧ (projPoint exP8 2).cashOut = 0 := by
  refine ⟨by decide, List.mem_map_of_mem _ (by simp [exP8, exP4]), ?_, ?_⟩ <;>
    norm_num [projPoint, projState, strategyStep, exP8, exP4, jsRound,
      ProjParams.rate, perPeriodRate]

/-- C8 amended: no strategy ever produces a period with both `newCash` and
`cashOut` non-zero — at most one of them is non-zero each period — and under
all-in both are zero from period 2 onward (period 1's bootstrap injects the
starting balance as `newCash` under every strategy; under other strategies
the designated cash flow may itself be zero when its formula evaluates to
zero, e.g. a zero parameter or zero rate). -/
theorem cashflow_at_most_one_nonzero (p : ProjParams) (i : ℕ) (hi : 1 ≤ i) :
    ((projPoint p i).newCash = 0 ∨ (projPoint p i).cashOut = 0) ∧
    (p.reinvestmentStrategy = .allIn → 2 ≤ i →
      (projPoint p i).newCash = 0 ∧ (projPoint p i).cashOut = 0) := by
  match i with
  | 1 => exact ⟨Or.inr rfl, fun _ h => absurd h (by norm_num)⟩
  | n + 2 =>
    constructor
    · rcases strategyStep_exclusive p (projState p (n + 1)).1 (projState p (n + 1)).2
        with h | h
      · exact Or.inl (by
          show jsRound (strategyStep p (projState p (n + 1)).1
            (projState p (n + 1)).2).newCash = 0
          rw [h, jsRound_zero])
      · exact Or.inr (by
          show jsRound (strategyStep p (projState p (n + 1)).1
            (projState p (n + 1)).2).cashOut = 0
          rw [h, jsRound_zero])
    · intro hall _
      constructor
      · show jsRound (strategyStep p (projState p (n + 1)).1
          (projState p (n + 1)).2).newCash = 0
        simp [strategyStep, hall, jsRound_zero]
      · show jsRound (strategyStep p (projState p (n + 1)).1
          (projState p (n + 1)).2).cashOut = 0
        simp [strategyStep, hall, jsRound_zero]

/-- Witness for the amended C8 at a concrete configuration and period 2. -/
theorem cashflow_at_most_one_nonzero_witness :
    ((projPoint exP1 2).newCash = 0 ∨ (projPoint exP1 2).cashOut = 0) ∧
    (exP1.reinvestmentStrategy = .allIn → 2 ≤ 2 →
      (projPoint exP1 2).newCash = 0 ∧ (projPoint exP1 2).cashOut = 0) :=
  cashflow_at_most_one_nonzero exP1 2 (by norm_num)

/-- C9: the projector's period-1 bootstrap injects the original principal
(`investmentAmount`) as `newCash`, while the custom strategy's solver call
starts from the historical series' final rounded `currentValue` — and the
two references genuinely differ (concretely, 1000 vs 1100 for the lump-sum
1000/10%/12-month series). -/
theorem bootstrap_vs_solver_reference (cfg : GrowthConfig) (pf : ProjectionFrequency)
    (pd : ℕ) (strat : ReinvestmentStrategy) (lvl sal tgt : ℚ) :
    (projPoint (projParamsOf cfg pf pd strat lvl sal tgt) 1).newCash =
      jsRound cfg.investmentAmount ∧
    (projParamsOf cfg pf pd strat lvl sal tgt).customPerPeriodAmount =
      calculatePerPeriodInvestment ((finalCurrentValue cfg : ℤ) : ℚ) tgt pd
        (cfg.roiPercentage / 100) pf ∧
    jsRound c6cfg.investmentAmount = 1000 ∧ finalCurrentValue c6cfg = 1100 ∧
    ((1000 : ℤ) ≠ 1100) := by
  refine ⟨rfl, rfl, ?_, ?_, by norm_num⟩
  · norm_num [c6cfg, jsRound]
  · norm_num [finalCurrentValue, calcPoint, calcUnrounded, totalPeriods, c6cfg, jsRound]

theorem takeSalary_zero_absorbing_step (p : ProjParams)
    (hstrat : p.reinvestmentStrategy = .takeSalary) (hsal : 0 ≤ p.salaryAmount)
    (pp : ℚ) :
    strategyStep p 0 pp = { newCash := 0, cashOut := 0, endValue := 0 } := by
  simp [strategyStep, hstrat, min_eq_right hsal]

theorem takeSalary_zero_state_chain (p : ProjParams)
    (hstrat : p.reinvestmentStrategy = .takeSalary) (hsal : 0 ≤ p.salaryAmount)
    (m : ℕ) (hm : 1 ≤ m) (hz : (projState p m).1 = 0) :
    ∀ k, (projState p (m + k)).1 = 0 := by
  intro k
  induction k with
  | zero => simpa using hz
  | succ k ih =>
    obtain ⟨n, hn⟩ : ∃ n, m + k = n + 1 := ⟨m + k - 1, by omega⟩
    rw [show m + (k + 1) = n + 2 by omega]
    rw [hn] at ih
    show (strategyStep p (projState p (n + 1)).1 (projState p (n + 1)).2).endValue = 0
    rw [ih, takeSalary_zero_absorbing_step p hstrat hsal]

/-- C10: under take-salary with a non-negative salary parameter a zero
carried balance is absorbing — if the unrounded balance entering period
`i ≥ 2` is 0, then every period from `i` on has carried balance 0 and
emits `startValue = 0`, `cashOut = 0`, `endValue = 0`. -/
theorem takeSalary_zero_absorbing (p : ProjParams)
    (hstrat : p.reinvestmentStrategy = .takeSalary) (hsal : 0 ≤ p.salaryAmount)
    (i : ℕ) (hi : 2 ≤ i) (hz : (projState p (i - 1)).1 = 0) :
    ∀ j, i ≤ j →
      (projState p j).1 = 0 ∧ (projPoint p j).startValue = 0 ∧
      (projPoint p j).cashOut = 0 ∧ (projPoint p j).endValue = 0 := by
  have chain := takeSalary_zero_state_chain p hstrat hsal (i - 1) (by omega) hz
  intro j hj
  have hj1 : (projState p (j - 1)).1 = 0 := by
    have h := chain (j - 1 - (i - 1))
    rwa [show i - 1 + (j - 1 - (i - 1)) = j - 1 by omega] at h
  have hjs : (projState p j).1 = 0 := by
    have h := chain (j - (i - 1))
    rwa [show i - 1 + (j - (i - 1)) = j by omega] at h
  obtain ⟨n, rfl⟩ : ∃ n, j = n + 2 := ⟨j - 2, by omega⟩
  have hb : (projState p (n + 1)).1 = 0 := by simpa using hj1
  have hstep := takeSalary_zero_absorbing_step p hstrat hsal (projState p (n + 1)).2
  refine ⟨hjs, ?_, ?_, ?_⟩
  · show jsRound (projState p (n + 1)).1 = 0
    rw [hb, jsRound_zero]
  · show jsRound (strategyStep p (projState p (n + 1)).1
      (projState p (n + 1)).2).cashOut = 0
    rw [hb, hstep]
    exact jsRound_zero
  · show jsRound (strategyStep p (projState p (n + 1)).1
      (projState p (n + 1)).2).endValue = 0
    rw [hb, hstep]
    exact jsRound_zero

def exP10 : ProjParams :=
  { investmentAmount := 100, roiPercentage := 0, inflationRate := 3,
    enableInflation := false, projectionFrequency := .yearly, projectionDuration := 4,
    reinvestmentStrategy := .takeSalary, levelUpAmount := 50, salaryAmount := 100,
    customTargetAmount := 50000, finalCurrentValue := 100 }

/-- Witness for C10: balance 100, zero rate, salary 100 — the balance is
exhausted at period 2 and period 3 is fully zero. -/
theorem takeSalary_zero_absorbing_witness :
    (projState exP10 3).1 = 0 ∧ (projPoint exP10 3).startValue = 0 ∧
    (projPoint exP10 3).cashOut = 0 ∧ (projPoint exP10 3).endValue = 0 :=
  takeSalary_zero_absorbing exP10 rfl (by norm_num [exP10]) 3 (by norm_num)
    (by norm_num [projState, strategyStep, exP10, ProjParams.rate, perPeriodRate])
    3 (le_refl 3)

end WealthProjector
